import Mathlib

/-!
Verification of the cross-runtime bridge in `verifiers-ts`
(`python-bridge/verifiers_ts_loader.py` and `verifiers/utils/env_utils.py`).

JSON values decoded by Python's `json.loads` are modelled by the inductive
type `Json` below.  Python dictionaries are modelled as association lists in
insertion order (CPython dicts preserve insertion order; assigning to an
existing key keeps its position).  JSON numbers with a fraction or exponent
are modelled as a decimal mantissa/exponent pair (`Json.num m e`, denoting
m * 10^e); no claim depends on binary floating-point semantics.
-/

inductive Json where
  | null
  | bool (b : Bool)
  | int (n : Int)
  | num (m : Int) (e : Int)
  | str (s : String)
  | arr (xs : List Json)
  | obj (kvs : List (String × Json))
deriving Repr, BEq

mutual

def jsonDecEq (a b : Json) : Decidable (a = b) :=
  match a, b with
  | .null, .null => isTrue rfl
  | .bool x, .bool y =>
    match decEq x y with
    | isTrue h => isTrue (by rw [h])
    | isFalse h => isFalse (by intro hh; cases hh; exact h rfl)
  | .int x, .int y =>
    match decEq x y with
    | isTrue h => isTrue (by rw [h])
    | isFalse h => isFalse (by intro hh; cases hh; exact h rfl)
  | .num x e, .num y f =>
    match decEq x y, decEq e f with
    | isTrue h, isTrue h2 => isTrue (by rw [h, h2])
    | isFalse h, _ => isFalse (by intro hh; cases hh; exact h rfl)
    | _, isFalse h => isFalse (by intro hh; cases hh; exact h rfl)
  | .str x, .str y =>
    match decEq x y with
    | isTrue h => isTrue (by rw [h])
    | isFalse h => isFalse (by intro hh; cases hh; exact h rfl)
  | .arr xs, .arr ys =>
    match jsonDecEqList xs ys with
    | isTrue h => isTrue (by rw [h])
    | isFalse h => isFalse (by intro hh; cases hh; exact h rfl)
  | .obj xs, .obj ys =>
    match jsonDecEqKVs xs ys with
    | isTrue h => isTrue (by rw [h])
    | isFalse h => isFalse (by intro hh; cases hh; exact h rfl)
  | .null, .bool _ => isFalse (by intro h; cases h)
  | .null, .int _ => isFalse (by intro h; cases h)
  | .null, .num _ _ => isFalse (by intro h; cases h)
  | .null, .str _ => isFalse (by intro h; cases h)
  | .null, .arr _ => isFalse (by intro h; cases h)
  | .null, .obj _ => isFalse (by intro h; cases h)
  | .bool _, .null => isFalse (by intro h; cases h)
  | .bool _, .int _ => isFalse (by intro h; cases h)
  | .bool _, .num _ _ => isFalse (by intro h; cases h)
  | .bool _, .str _ => isFalse (by intro h; cases h)
  | .bool _, .arr _ => isFalse (by intro h; cases h)
  | .bool _, .obj _ => isFalse (by intro h; cases h)
  | .int _, .null => isFalse (by intro h; cases h)
  | .int _, .bool _ => isFalse (by intro h; cases h)
  | .int _, .num _ _ => isFalse (by intro h; cases h)
  | .int _, .str _ => isFalse (by intro h; cases h)
  | .int _, .arr _ => isFalse (by intro h; cases h)
  | .int _, .obj _ => isFalse (by intro h; cases h)
  | .num _ _, .null => isFalse (by intro h; cases h)
  | .num _ _, .bool _ => isFalse (by intro h; cases h)
  | .num _ _, .int _ => isFalse (by intro h; cases h)
  | .num _ _, .str _ => isFalse (by intro h; cases h)
  | .num _ _, .arr _ => isFalse (by intro h; cases h)
  | .num _ _, .obj _ => isFalse (by intro h; cases h)
  | .str _, .null => isFalse (by intro h; cases h)
  | .str _, .bool _ => isFalse (by intro h; cases h)
  | .str _, .int _ => isFalse (by intro h; cases h)
  | .str _, .num _ _ => isFalse (by intro h; cases h)
  | .str _, .arr _ => isFalse (by intro h; cases h)
  | .str _, .obj _ => isFalse (by intro h; cases h)
  | .arr _, .null => isFalse (by intro h; cases h)
  | .arr _, .bool _ => isFalse (by intro h; cases h)
  | .arr _, .int _ => isFalse (by intro h; cases h)
  | .arr _, .num _ _ => isFalse (by intro h; cases h)
  | .arr _, .str _ => isFalse (by intro h; cases h)
  | .arr _, .obj _ => isFalse (by intro h; cases h)
  | .obj _, .null => isFalse (by intro h; cases h)
  | .obj _, .bool _ => isFalse (by intro h; cases h)
  | .obj _, .int _ => isFalse (by intro h; cases h)
  | .obj _, .num _ _ => isFalse (by intro h; cases h)
  | .obj _, .str _ => isFalse (by intro h; cases h)
  | .obj _, .arr _ => isFalse (by intro h; cases h)

def jsonDecEqList (a b : List Json) : Decidable (a = b) :=
  match a, b with
  | [], [] => isTrue rfl
  | [], _ :: _ => isFalse (by intro h; cases h)
  | _ :: _, [] => isFalse (by intro h; cases h)
  | x :: xs, y :: ys =>
    match jsonDecEq x y, jsonDecEqList xs ys with
    | isTrue h, isTrue h2 => isTrue (by rw [h, h2])
    | isFalse h, _ => isFalse (by intro hh; cases hh; exact h rfl)
    | _, isFalse h => isFalse (by intro hh; cases hh; exact h rfl)

def jsonDecEqKVs (a b : List (String × Json)) : Decidable (a = b) :=
  match a, b with
  | [], [] => isTrue rfl
  | [], _ :: _ => isFalse (by intro h; cases h)
  | _ :: _, [] => isFalse (by intro h; cases h)
  | (k, v) :: xs, (k2, v2) :: ys =>
    match decEq k k2, jsonDecEq v v2, jsonDecEqKVs xs ys with
    | isTrue h, isTrue h2, isTrue h3 => isTrue (by rw [h, h2, h3])
    | isFalse h, _, _ => isFalse (by intro hh; cases hh; exact h rfl)
    | _, isFalse h, _ => isFalse (by intro hh; cases hh; exact h rfl)
    | _, _, isFalse h => isFalse (by intro hh; cases hh; exact h rfl)

end

instance : DecidableEq Json := jsonDecEq

/-- Association-list lookup: Python `d[k]` / `d.get(k)` on an
insertion-ordered dict (first binding of a key is the authoritative one). -/
def jsonLookup : List (String × Json) → String → Option Json
  | [], _ => none
  | (k, v) :: rest, key => if k = key then some v else jsonLookup rest key

/-- Python `d[k] = v` on an insertion-ordered dict: replaces the value at the
first binding of `k` (keeping its position) or appends a new binding. -/
def objSet : List (String × Json) → String → Json → List (String × Json)
  | [], key, v => [(key, v)]
  | (k, w) :: rest, key, v =>
    if k = key then (k, v) :: rest else (k, w) :: objSet rest key v

/-- Python truthiness of a JSON-decoded value (used by `x or y` and
`if x:`): None, False, 0, empty string/list/dict are falsy. -/
def pyTruthy : Json → Bool
  | .null => false
  | .bool b => b
  | .int n => n != 0
  | .num m _ => m != 0
  | .str s => s != ""
  | .arr xs => !xs.isEmpty
  | .obj kvs => !kvs.isEmpty

/-- The characters stripped by Python `str.strip()` (ASCII whitespace;
non-ASCII Unicode whitespace is not modelled, no claim exercises it). -/
def pyIsSpace (c : Char) : Bool :=
  c = ' ' || c = '\t' || c = '\n' || c = '\x0d' || c = '\x0b' || c = '\x0c'

/-- Python `str.strip()`. -/
def pyStrip (s : String) : String :=
  String.mk (((s.toList.dropWhile pyIsSpace).reverse.dropWhile pyIsSpace).reverse)

/-- Python `str.startswith(p)`. -/
def pyStartsWith (s p : String) : Bool :=
  s.toList.take p.toList.length = p.toList

/-- Python codepoint slice `s[:n]`. -/
def pyTake (s : String) (n : Nat) : String :=
  String.mk (s.toList.take n)

/-- Index of the first occurrence of `c`, Python `s.find(c)` (with `none`
for Python's `-1`). -/
def charIndex : List Char → Char → Option Nat
  | [], _ => none
  | c :: rest, t => if c = t then some 0 else (charIndex rest t).map (· + 1)

/-- Quote character chosen by CPython `repr` for a string: single quote
unless the string contains a single quote and no double quote. -/
def pyQuoteChar (s : String) : Char :=
  if s.contains (Char.ofNat 39) && !s.contains '"' then '"' else Char.ofNat 39

/-- CPython `repr` escaping of one string character (backslash, the chosen
quote, and the common control characters; `\xNN` escapes for other
non-printable characters are not modelled, no claim exercises them). -/
def pyEscChar (q c : Char) : String :=
  if c = '\\' then "\\\\"
  else if c = q then "\\" ++ String.mk [q]
  else if c = '\n' then "\\n"
  else if c = '\x0d' then "\\r"
  else if c = '\t' then "\\t"
  else String.mk [c]

/-- CPython `repr` of a string. -/
def pyReprStr (s : String) : String :=
  let q := pyQuoteChar s
  String.mk [q] ++ String.join (s.toList.map (pyEscChar q)) ++ String.mk [q]

mutual

/-- Python `str(x)` for a JSON-decoded value (`str` of a non-string falls
back to `repr`-style rendering of the components; the decimal rendering of
`Json.num` floats is schematic, no claim exercises it). -/
def pyStr : Json → String
  | .str s => s
  | v => pyRepr v

/-- Python `repr(x)` for a JSON-decoded value. -/
def pyRepr : Json → String
  | .null => "None"
  | .bool true => "True"
  | .bool false => "False"
  | .int n => toString n
  | .num m e => toString m ++ "e" ++ toString e
  | .str s => pyReprStr s
  | .arr xs => "[" ++ pyReprElems xs ++ "]"
  | .obj kvs => "\x7b" ++ pyReprMembers kvs ++ "\x7d"

def pyReprElems : List Json → String
  | [] => ""
  | [x] => pyRepr x
  | x :: xs => pyRepr x ++ ", " ++ pyReprElems xs

def pyReprMembers : List (String × Json) → String
  | [] => ""
  | [(k, v)] => pyReprStr k ++ ": " ++ pyRepr v
  | (k, v) :: kvs => pyReprStr k ++ ": " ++ pyRepr v ++ ", " ++ pyReprMembers kvs

end

/-- One hexadecimal digit (lowercase), for `\uNNNN` escapes. -/
def hexDigit (n : Nat) : Char :=
  if n < 10 then Char.ofNat (48 + n) else Char.ofNat (87 + n)

/-- Four-digit lowercase hex rendering of a codepoint. -/
def hex4 (n : Nat) : String :=
  String.mk [hexDigit (n / 4096 % 16), hexDigit (n / 256 % 16),
             hexDigit (n / 16 % 16), hexDigit (n % 16)]

/-- `json.dumps` escaping of one string character (default `ensure_ascii`:
control characters and non-ASCII codepoints become `\uNNNN`; astral
codepoints would use surrogate pairs, not modelled, no claim exercises
them). -/
def jsonEscChar (c : Char) : String :=
  if c = '"' then "\\\""
  else if c = '\\' then "\\\\"
  else if c = '\n' then "\\n"
  else if c = '\x0d' then "\\r"
  else if c = '\t' then "\\t"
  else if c = '\x08' then "\\b"
  else if c = '\x0c' then "\\f"
  else if c.toNat < 32 || c.toNat > 126 then "\\u" ++ hex4 c.toNat
  else String.mk [c]

mutual

/-- Python `json.dumps(x)` with default options (item separator `", "`,
key separator `": "`; the decimal rendering of `Json.num` floats is
schematic, no claim exercises it). -/
def jsonDumps : Json → String
  | .null => "null"
  | .bool true => "true"
  | .bool false => "false"
  | .int n => toString n
  | .num m e => toString m ++ "e" ++ toString e
  | .str s => "\"" ++ String.join (s.toList.map jsonEscChar) ++ "\""
  | .arr xs => "[" ++ jsonDumpsElems xs ++ "]"
  | .obj kvs => "\x7b" ++ jsonDumpsMembers kvs ++ "\x7d"

def jsonDumpsElems : List Json → String
  | [] => ""
  | [x] => jsonDumps x
  | x :: xs => jsonDumps x ++ ", " ++ jsonDumpsElems xs

def jsonDumpsMembers : List (String × Json) → String
  | [] => ""
  | [(k, v)] => "\"" ++ String.join (k.toList.map jsonEscChar) ++ "\": " ++ jsonDumps v
  | (k, v) :: kvs =>
    "\"" ++ String.join (k.toList.map jsonEscChar) ++ "\": " ++ jsonDumps v ++ ", "
      ++ jsonDumpsMembers kvs

end

/-- Drop duplicate keys, keeping the first binding of each key (the one
`jsonLookup` returns); `seen` accumulates the keys already kept. -/
def dedupKVsAux : List (String × Json) → List String → List (String × Json)
  | [], _ => []
  | (k, v) :: rest, seen =>
    if seen.contains k then dedupKVsAux rest seen
    else (k, v) :: dedupKVsAux rest (k :: seen)

/-- Insert a binding into a key-sorted association list. -/
def insertByKey (p : String × Json) : List (String × Json) → List (String × Json)
  | [] => [p]
  | q :: rest =>
    match compare p.1 q.1 with
    | .lt => p :: q :: rest
    | _ => q :: insertByKey p rest

/-- Sort an association list by key (insertion sort). -/
def sortByKey : List (String × Json) → List (String × Json)
  | [] => []
  | p :: rest => insertByKey p (sortByKey rest)

mutual

/-- Canonical form of a JSON value: object keys deduplicated (first binding
wins, as in `jsonLookup`) and sorted.  Two values denote equal Python
values (`==`) iff their canonical forms are equal.  (Python's numeric-tower
equality `True == 1 == 1.0` is not modelled; no claim compares a bool with
a number.) -/
def canon : Json → Json
  | .arr xs => .arr (canonList xs)
  | .obj kvs => .obj (sortByKey (dedupKVsAux (canonKVs kvs) []))
  | v => v

def canonList : List Json → List Json
  | [] => []
  | x :: xs => canon x :: canonList xs

def canonKVs : List (String × Json) → List (String × Json)
  | [] => []
  | (k, v) :: kvs => (k, canon v) :: canonKVs kvs

end

/-- Python `==` on JSON-decoded values: order-insensitive on dict keys,
order-sensitive on lists. -/
def pyEqv (a b : Json) : Prop := canon a = canon b

instance (a b : Json) : Decidable (pyEqv a b) := jsonDecEq (canon a) (canon b)

/-!
## Tool-call normalization
`normalize_tool_calls_in_messages` (verifiers_ts_loader.py lines 348-389),
the inner function of `_call_ts_method` applied to each message list under
the `prompt`/`completion` fields of an `evaluate` payload.  The values it
receives come from `json.loads`, so the `hasattr(tc, "model_dump")` branch
(Pydantic models) is unreachable and does not appear in the model.
-/

/-- Lines 370-371: `if "type" not in tc_dict or not isinstance(tc_dict["type"], str):
tc_dict["type"] = "function"`. -/
def fixType (kvs : List (String × Json)) : List (String × Json) :=
  match jsonLookup kvs "type" with
  | some (.str _) => kvs
  | _ => objSet kvs "type" (.str "function")

/-- Line 373: `func = tc_dict.get("function") or \x7b\x7d`. -/
def getFunc (kvs : List (String × Json)) : Json :=
  match jsonLookup kvs "function" with
  | some v => if pyTruthy v then v else .obj []
  | none => .obj []

/-- Lines 374-375: `if not isinstance(func, dict): func = {"name": str(func)}`. -/
def toFuncDict : Json → List (String × Json)
  | .obj kvs => kvs
  | v => [("name", .str (pyStr v))]

/-- Lines 376-377: default the function name to `"unknown_tool"` when absent
or not a string. -/
def fixName (kvs : List (String × Json)) : List (String × Json) :=
  match jsonLookup kvs "name" with
  | some (.str _) => kvs
  | _ => objSet kvs "name" (.str "unknown_tool")

/-- Lines 378-381: default `arguments` to `"{}"` when absent; re-encode it
with `json.dumps` when present but not a string. -/
def fixArguments (kvs : List (String × Json)) : List (String × Json) :=
  match jsonLookup kvs "arguments" with
  | none => objSet kvs "arguments" (.str "\x7b\x7d")
  | some (.str _) => kvs
  | some v => objSet kvs "arguments" (.str (jsonDumps v))

/-- Lines 370-382 applied to the dict `tc_dict`: the type/name/arguments
defaults, then `tc_dict["function"] = func`. -/
def normalizeToolCallDict (kvs : List (String × Json)) : List (String × Json) :=
  let tcDict2 := fixType kvs
  let func := fixArguments (fixName (toFuncDict (getFunc tcDict2)))
  objSet tcDict2 "function" (.obj func)

/-- Lines 362-382: normalization of one tool-call value.  A dict is copied;
any other value becomes `{"function": {"name": str(tc)}}`; then the
type/name/arguments defaults are applied and the function dict is stored
back. -/
def normalizeToolCall (tc : Json) : Json :=
  .obj (normalizeToolCallDict
    (match tc with
     | .obj kvs => kvs
     | v => [("function", .obj [("name", .str (pyStr v))])]))

/-- Lines 353-388 (loop body): a dict message is copied and, when it has a
`tool_calls` key holding a list, that list is normalized elementwise; any
other message is passed through unchanged. -/
def normalizeMessage : Json → Json
  | .obj kvs =>
    match jsonLookup kvs "tool_calls" with
    | some (.arr tcs) => .obj (objSet kvs "tool_calls" (.arr (tcs.map normalizeToolCall)))
    | _ => .obj kvs
  | v => v

/-- Lines 348-389: `normalize_tool_calls_in_messages` — a non-list input is
returned unchanged; a list is normalized messagewise. -/
def normalizeToolCallsInMessages : Json → Json
  | .arr msgs => .arr (msgs.map normalizeMessage)
  | v => v

theorem jsonLookup_objSet_self (kvs : List (String × Json)) (k : String) (v : Json) :
    jsonLookup (objSet kvs k v) k = some v := by
  induction kvs with
  | nil => simp [objSet, jsonLookup]
  | cons p rest ih =>
    obtain ⟨k2, w⟩ := p
    by_cases h : k2 = k
    · simp [objSet, h, jsonLookup]
    · simp [objSet, h, jsonLookup, ih]

theorem jsonLookup_objSet_other (kvs : List (String × Json)) (k k2 : String) (v : Json)
    (h : k2 ≠ k) : jsonLookup (objSet kvs k v) k2 = jsonLookup kvs k2 := by
  induction kvs with
  | nil => simp [objSet, jsonLookup, Ne.symm h]
  | cons p rest ih =>
    obtain ⟨k3, w⟩ := p
    by_cases h3 : k3 = k
    · subst h3
      simp [objSet, jsonLookup, Ne.symm h]
    · simp [objSet, h3, jsonLookup, ih]

theorem objSet_objSet (kvs : List (String × Json)) (k : String) (v w : Json) :
    objSet (objSet kvs k v) k w = objSet kvs k w := by
  induction kvs with
  | nil => simp [objSet]
  | cons p rest ih =>
    obtain ⟨k2, u⟩ := p
    by_cases h : k2 = k
    · simp [objSet, h]
    · simp [objSet, h, ih]

theorem objSet_of_lookup_eq (kvs : List (String × Json)) (k : String) (v : Json)
    (h : jsonLookup kvs k = some v) : objSet kvs k v = kvs := by
  induction kvs with
  | nil => simp [jsonLookup] at h
  | cons p rest ih =>
    obtain ⟨k2, w⟩ := p
    by_cases h2 : k2 = k
    · subst h2
      simp [jsonLookup] at h
      simp [objSet, h]
    · simp [jsonLookup, h2] at h
      simp [objSet, h2, ih h]

theorem jsonLookup_ne_nil (kvs : List (String × Json)) (k : String) (v : Json)
    (h : jsonLookup kvs k = some v) : kvs.isEmpty = false := by
  cases kvs with
  | nil => simp [jsonLookup] at h
  | cons p rest => simp [List.isEmpty]

theorem fixType_lookup (kvs : List (String × Json)) :
    ∃ s, jsonLookup (fixType kvs) "type" = some (.str s) := by
  unfold fixType
  match h : jsonLookup kvs "type" with
  | some (.str s) => exact ⟨s, by simp [h]⟩
  | none => exact ⟨"function", by simp [h, jsonLookup_objSet_self]⟩
  | some .null => exact ⟨"function", by simp [h, jsonLookup_objSet_self]⟩
  | some (.bool _) => exact ⟨"function", by simp [h, jsonLookup_objSet_self]⟩
  | some (.int _) => exact ⟨"function", by simp [h, jsonLookup_objSet_self]⟩
  | some (.num _ _) => exact ⟨"function", by simp [h, jsonLookup_objSet_self]⟩
  | some (.arr _) => exact ⟨"function", by simp [h, jsonLookup_objSet_self]⟩
  | some (.obj _) => exact ⟨"function", by simp [h, jsonLookup_objSet_self]⟩

theorem fixType_of_str (kvs : List (String × Json)) (s : String)
    (h : jsonLookup kvs "type" = some (.str s)) : fixType kvs = kvs := by
  simp [fixType, h]

theorem fixName_lookup (kvs : List (String × Json)) :
    ∃ s, jsonLookup (fixName kvs) "name" = some (.str s) := by
  unfold fixName
  match h : jsonLookup kvs "name" with
  | some (.str s) => exact ⟨s, by simp [h]⟩
  | none => exact ⟨"unknown_tool", by simp [h, jsonLookup_objSet_self]⟩
  | some .null => exact ⟨"unknown_tool", by simp [h, jsonLookup_objSet_self]⟩
  | some (.bool _) => exact ⟨"unknown_tool", by simp [h, jsonLookup_objSet_self]⟩
  | some (.int _) => exact ⟨"unknown_tool", by simp [h, jsonLookup_objSet_self]⟩
  | some (.num _ _) => exact ⟨"unknown_tool", by simp [h, jsonLookup_objSet_self]⟩
  | some (.arr _) => exact ⟨"unknown_tool", by simp [h, jsonLookup_objSet_self]⟩
  | some (.obj _) => exact ⟨"unknown_tool", by simp [h, jsonLookup_objSet_self]⟩

theorem fixArguments_lookup (kvs : List (String × Json)) :
    ∃ s, jsonLookup (fixArguments kvs) "arguments" = some (.str s) := by
  unfold fixArguments
  match h : jsonLookup kvs "arguments" with
  | some (.str s) => exact ⟨s, by simp [h]⟩
  | none => exact ⟨"\x7b\x7d", by simp [h, jsonLookup_objSet_self]⟩
  | some .null => exact ⟨jsonDumps .null, by simp [h, jsonLookup_objSet_self]⟩
  | some (.bool b) => exact ⟨jsonDumps (.bool b), by simp [h, jsonLookup_objSet_self]⟩
  | some (.int n) => exact ⟨jsonDumps (.int n), by simp [h, jsonLookup_objSet_self]⟩
  | some (.num m e) => exact ⟨jsonDumps (.num m e), by simp [h, jsonLookup_objSet_self]⟩
  | some (.arr xs) => exact ⟨jsonDumps (.arr xs), by simp [h, jsonLookup_objSet_self]⟩
  | some (.obj o) => exact ⟨jsonDumps (.obj o), by simp [h, jsonLookup_objSet_self]⟩

theorem jsonLookup_objSet_args_name (kvs : List (String × Json)) (v : Json) :
    jsonLookup (objSet kvs "arguments" v) "name" = jsonLookup kvs "name" :=
  jsonLookup_objSet_other kvs "arguments" "name" v (by decide)

theorem fixArguments_name (kvs : List (String × Json)) :
    jsonLookup (fixArguments kvs) "name" = jsonLookup kvs "name" := by
  unfold fixArguments
  match h : jsonLookup kvs "arguments" with
  | some (.str s) => simp
  | none => simp [jsonLookup_objSet_args_name]
  | some .null => simp [jsonLookup_objSet_args_name]
  | some (.bool _) => simp [jsonLookup_objSet_args_name]
  | some (.int _) => simp [jsonLookup_objSet_args_name]
  | some (.num _ _) => simp [jsonLookup_objSet_args_name]
  | some (.arr _) => simp [jsonLookup_objSet_args_name]
  | some (.obj _) => simp [jsonLookup_objSet_args_name]

theorem fixName_of_str (kvs : List (String × Json)) (s : String)
    (h : jsonLookup kvs "name" = some (.str s)) : fixName kvs = kvs := by
  simp [fixName, h]

theorem fixArguments_of_str (kvs : List (String × Json)) (s : String)
    (h : jsonLookup kvs "arguments" = some (.str s)) : fixArguments kvs = kvs := by
  simp [fixArguments, h]

theorem getFunc_of_lookup_obj (kvs F : List (String × Json))
    (h : jsonLookup kvs "function" = some (.obj F)) (hne : F.isEmpty = false) :
    getFunc kvs = .obj F := by
  unfold getFunc
  rw [h]
  simp [pyTruthy, hne]

theorem normalizeToolCallDict_idem (kvs : List (String × Json)) :
    normalizeToolCallDict (normalizeToolCallDict kvs) = normalizeToolCallDict kvs := by
  -- facts about the output D of the first pass
  obtain ⟨t, ht⟩ := fixType_lookup kvs
  obtain ⟨n, hn⟩ := fixName_lookup (toFuncDict (getFunc (fixType kvs)))
  have hFname : jsonLookup (fixArguments (fixName (toFuncDict (getFunc (fixType kvs)))))
      "name" = some (.str n) := by rw [fixArguments_name]; exact hn
  obtain ⟨a, ha⟩ := fixArguments_lookup (fixName (toFuncDict (getFunc (fixType kvs))))
  have hFne : (fixArguments (fixName (toFuncDict (getFunc (fixType kvs))))).isEmpty
      = false := jsonLookup_ne_nil _ _ _ hFname
  have hD : normalizeToolCallDict kvs
      = objSet (fixType kvs) "function"
          (.obj (fixArguments (fixName (toFuncDict (getFunc (fixType kvs)))))) := rfl
  have hDtype : jsonLookup (normalizeToolCallDict kvs) "type" = some (.str t) := by
    rw [hD, jsonLookup_objSet_other _ "function" "type" _ (by decide)]
    exact ht
  have hDfunc : jsonLookup (normalizeToolCallDict kvs) "function"
      = some (.obj (fixArguments (fixName (toFuncDict (getFunc (fixType kvs)))))) := by
    rw [hD]; exact jsonLookup_objSet_self _ _ _
  -- the second pass leaves D unchanged
  have h1 : fixType (normalizeToolCallDict kvs) = normalizeToolCallDict kvs :=
    fixType_of_str _ _ hDtype
  have h2 : getFunc (normalizeToolCallDict kvs)
      = .obj (fixArguments (fixName (toFuncDict (getFunc (fixType kvs))))) :=
    getFunc_of_lookup_obj _ _ hDfunc hFne
  have hstep : normalizeToolCallDict (normalizeToolCallDict kvs)
      = objSet (fixType (normalizeToolCallDict kvs)) "function"
          (.obj (fixArguments (fixName (toFuncDict
            (getFunc (fixType (normalizeToolCallDict kvs))))))) := rfl
  rw [hstep, h1, h2]
  show objSet (normalizeToolCallDict kvs) "function"
      (.obj (fixArguments (fixName (fixArguments (fixName (toFuncDict
        (getFunc (fixType kvs)))))))) = normalizeToolCallDict kvs
  rw [fixName_of_str _ _ hFname, fixArguments_of_str _ _ ha, hD, objSet_objSet]

theorem normalizeToolCall_idem (tc : Json) :
    normalizeToolCall (normalizeToolCall tc) = normalizeToolCall tc := by
  show Json.obj (normalizeToolCallDict (normalizeToolCallDict
    (match tc with
     | .obj kvs => kvs
     | v => [("function", .obj [("name", .str (pyStr v))])]))) = normalizeToolCall tc
  rw [normalizeToolCallDict_idem]
  rfl

theorem normalizeMessage_idem (msg : Json) :
    normalizeMessage (normalizeMessage msg) = normalizeMessage msg := by
  unfold normalizeMessage
  match msg with
  | .null => rfl
  | .bool _ => rfl
  | .int _ => rfl
  | .num _ _ => rfl
  | .str _ => rfl
  | .arr _ => rfl
  | .obj kvs =>
    match h : jsonLookup kvs "tool_calls" with
    | some (.arr tcs) =>
      simp only [h]
      have h2 : jsonLookup (objSet kvs "tool_calls" (.arr (tcs.map normalizeToolCall)))
          "tool_calls" = some (.arr (tcs.map normalizeToolCall)) :=
        jsonLookup_objSet_self _ _ _
      simp only [h2, objSet_objSet, List.map_map]
      have h3 : (tcs.map normalizeToolCall).map normalizeToolCall
          = tcs.map normalizeToolCall := by
        rw [List.map_map]
        exact List.map_congr_left (fun tc _ => normalizeToolCall_idem tc)
      rw [List.map_map] at h3
      rw [h3]
    | none => simp only [h]
    | some .null => simp only [h]
    | some (.bool _) => simp only [h]
    | some (.int _) => simp only [h]
    | some (.num _ _) => simp only [h]
    | some (.str _) => simp only [h]
    | some (.obj _) => simp only [h]

/-- C6: message-record normalization is idempotent — for every value,
applying `normalize_tool_calls_in_messages` to its own output yields a
result identical to that output. -/
theorem normalizeToolCallsInMessages_idem (v : Json) :
    normalizeToolCallsInMessages (normalizeToolCallsInMessages v)
      = normalizeToolCallsInMessages v := by
  unfold normalizeToolCallsInMessages
  match v with
  | .null => rfl
  | .bool _ => rfl
  | .int _ => rfl
  | .num _ _ => rfl
  | .str _ => rfl
  | .obj _ => rfl
  | .arr msgs =>
    simp only [List.map_map]
    congr 1
    exact List.map_congr_left (fun m _ => by
      simpa [Function.comp] using normalizeMessage_idem m)

/-!
## JSON decoding
A model of Python `json.loads` (strict mode): one JSON value, optionally
surrounded by whitespace; trailing non-whitespace text is a decode error.
`NaN`/`Infinity` literals and surrogate-pair combination are not modelled
(no claim exercises them).  Duplicate object keys behave as repeated
`d[k] = v` assignments: the first binding keeps its position, the last
value wins.
-/

/-- Whitespace the JSON decoder skips between tokens. -/
def jsonIsWs (c : Char) : Bool :=
  c = ' ' || c = '\t' || c = '\n' || c = '\x0d'

/-- Skip inter-token whitespace. -/
def skipWsL (cs : List Char) : List Char := cs.dropWhile jsonIsWs

/-- Value of one hexadecimal digit. -/
def hexVal (c : Char) : Option Nat :=
  if '0' ≤ c && c ≤ '9' then some (c.toNat - 48)
  else if 'a' ≤ c && c ≤ 'f' then some (c.toNat - 87)
  else if 'A' ≤ c && c ≤ 'F' then some (c.toNat - 55)
  else none

/-- Four hexadecimal digits of a `\uNNNN` escape. -/
def parseHex4 : List Char → Option (Nat × List Char)
  | a :: b :: c :: d :: rest =>
    match hexVal a, hexVal b, hexVal c, hexVal d with
    | some x, some y, some z, some w => some (((x * 16 + y) * 16 + z) * 16 + w, rest)
    | _, _, _, _ => none
  | _ => none

/-- Body of a JSON string literal (after the opening quote), strict mode:
raw control characters are rejected, escapes are decoded. -/
def parseJStringBody : Nat → List Char → List Char → Option (String × List Char)
  | 0, _, _ => none
  | _ + 1, [], _ => none
  | f + 1, c :: rest, acc =>
    if c = '"' then some (String.mk acc.reverse, rest)
    else if c = '\\' then
      match rest with
      | [] => none
      | e :: rest2 =>
        if e = '"' then parseJStringBody f rest2 ('"' :: acc)
        else if e = '\\' then parseJStringBody f rest2 ('\\' :: acc)
        else if e = '/' then parseJStringBody f rest2 ('/' :: acc)
        else if e = 'b' then parseJStringBody f rest2 ('\x08' :: acc)
        else if e = 'f' then parseJStringBody f rest2 ('\x0c' :: acc)
        else if e = 'n' then parseJStringBody f rest2 ('\n' :: acc)
        else if e = 'r' then parseJStringBody f rest2 ('\x0d' :: acc)
        else if e = 't' then parseJStringBody f rest2 ('\t' :: acc)
        else if e = 'u' then
          match parseHex4 rest2 with
          | some (n, rest3) => parseJStringBody f rest3 (Char.ofNat n :: acc)
          | none => none
        else none
    else if c.toNat < 32 then none
    else parseJStringBody f rest (c :: acc)

/-- Decimal value of a digit run. -/
def digitsToNat : List Char → Nat → Nat
  | [], acc => acc
  | c :: cs, acc => digitsToNat cs (acc * 10 + (c.toNat - 48))

/-- A JSON number token: optional minus, integer part (no leading zeros),
optional fraction and exponent.  A plain integer decodes to `Json.int`
(Python `int`); fraction/exponent forms decode to the `Json.num`
mantissa/exponent model of Python `float`. -/
def parseNumber (cs : List Char) : Option (Json × List Char) :=
  let (neg, cs1) := match cs with
    | '-' :: rest => (true, rest)
    | _ => (false, cs)
  let ds := cs1.takeWhile Char.isDigit
  let after := cs1.dropWhile Char.isDigit
  if ds.isEmpty then none
  else if 1 < ds.length && ds.headD '0' = '0' then none
  else
    let (fs, after2) := match after with
      | '.' :: a2 => (a2.takeWhile Char.isDigit, a2.dropWhile Char.isDigit)
      | _ => ([], after)
    let hasFrac := match after with
      | '.' :: _ => true
      | _ => false
    if hasFrac && fs.isEmpty then none
    else
      let (hasExp, expNeg, es, after3) := match after2 with
        | 'e' :: '-' :: a3 => (true, true, a3.takeWhile Char.isDigit, a3.dropWhile Char.isDigit)
        | 'e' :: '+' :: a3 => (true, false, a3.takeWhile Char.isDigit, a3.dropWhile Char.isDigit)
        | 'e' :: a3 => (true, false, a3.takeWhile Char.isDigit, a3.dropWhile Char.isDigit)
        | 'E' :: '-' :: a3 => (true, true, a3.takeWhile Char.isDigit, a3.dropWhile Char.isDigit)
        | 'E' :: '+' :: a3 => (true, false, a3.takeWhile Char.isDigit, a3.dropWhile Char.isDigit)
        | 'E' :: a3 => (true, false, a3.takeWhile Char.isDigit, a3.dropWhile Char.isDigit)
        | _ => (false, false, [], after2)
      if hasExp && es.isEmpty then none
      else
        let sign : Int := if neg then -1 else 1
        if !hasFrac && !hasExp then
          some (.int (sign * Int.ofNat (digitsToNat ds 0)), after)
        else
          let mant : Int := sign * Int.ofNat (digitsToNat (ds ++ fs) 0)
          let expv : Int := (if expNeg then -(Int.ofNat (digitsToNat es 0))
            else Int.ofNat (digitsToNat es 0)) - Int.ofNat fs.length
          some (.num mant expv, after3)

mutual

/-- One JSON value, returning the remaining input. -/
def parseValue : Nat → List Char → Option (Json × List Char)
  | 0, _ => none
  | f + 1, cs =>
    match skipWsL cs with
    | [] => none
    | c :: rest =>
      if c = '\x7b' then
        match skipWsL rest with
        | '\x7d' :: rest2 => some (.obj [], rest2)
        | rest2 => parseMembers f rest2 []
      else if c = '[' then
        match skipWsL rest with
        | ']' :: rest2 => some (.arr [], rest2)
        | rest2 => parseElements f rest2 []
      else if c = '"' then
        match parseJStringBody (rest.length + 1) rest [] with
        | some (s, rest2) => some (.str s, rest2)
        | none => none
      else if c = 't' then
        match rest with
        | 'r' :: 'u' :: 'e' :: rest2 => some (.bool true, rest2)
        | _ => none
      else if c = 'f' then
        match rest with
        | 'a' :: 'l' :: 's' :: 'e' :: rest2 => some (.bool false, rest2)
        | _ => none
      else if c = 'n' then
        match rest with
        | 'u' :: 'l' :: 'l' :: rest2 => some (.null, rest2)
        | _ => none
      else parseNumber (c :: rest)

/-- The members of a non-empty JSON object (after the opening brace). -/
def parseMembers (fuel : Nat) (cs : List Char) (acc : List (String × Json)) :
    Option (Json × List Char) :=
  match fuel with
  | 0 => none
  | f + 1 =>
    match skipWsL cs with
    | '"' :: rest =>
      match parseJStringBody (rest.length + 1) rest [] with
      | some (k, rest2) =>
        match skipWsL rest2 with
        | ':' :: rest3 =>
          match parseValue f rest3 with
          | some (v, rest4) =>
            match skipWsL rest4 with
            | ',' :: rest5 => parseMembers f rest5 (objSet acc k v)
            | '\x7d' :: rest5 => some (.obj (objSet acc k v), rest5)
            | _ => none
          | none => none
        | _ => none
      | none => none
    | _ => none

/-- The elements of a non-empty JSON array (after the opening bracket). -/
def parseElements (fuel : Nat) (cs : List Char) (acc : List Json) :
    Option (Json × List Char) :=
  match fuel with
  | 0 => none
  | f + 1 =>
    match parseValue f cs with
    | some (v, rest) =>
      match skipWsL rest with
      | ',' :: rest2 => parseElements f rest2 (v :: acc)
      | ']' :: rest2 => some (.arr (v :: acc).reverse, rest2)
      | _ => none
    | none => none

end

/-- Python `json.loads`: one JSON value with optional surrounding
whitespace; anything left over is a decode error (`none`). -/
def jsonParse (s : String) : Option Json :=
  match parseValue (s.toList.length + 1) s.toList with
  | some (v, rest) => if (skipWsL rest).isEmpty then some v else none
  | none => none

/-!
## Response parsing and failure mapping (`_call_ts_method`)
The host-visible error conditions of the bridge.  Each constructor
corresponds to one `raise` site in `_call_ts_method` (all of them raise
`RuntimeError` in Python; the constructor is the condition's label):
`noPayload` — line 312 (empty/blank stdout), `payloadNotFound` — line 328
(no object/array start character), `decodeError` — line 412 (extracted text
not decodable), `remoteMethodFailed` — lines 425-435 (non-zero exit),
`hostError` — exceptions that escape `_call_ts_method` unwrapped (OSError
starting the subprocess, AttributeError/TypeError on unexpected payload
shapes). -/
inductive CallError where
  | noPayload (msg : String)
  | payloadNotFound (msg : String)
  | decodeError (msg : String)
  | remoteMethodFailed (msg : String)
  | hostError (msg : String)
deriving Repr, DecidableEq

/-- Lines 307-312: message of the empty-stdout error. -/
def noPayloadMsg (method stderr : String) : String :=
  let m := "No output from TypeScript method " ++ method
  if stderr == "" then m else m ++ "\nStderr: " ++ stderr

/-- Lines 322-327: message of the no-payload-start error. -/
def payloadNotFoundMsg (method stdout stderr : String) : String :=
  let m := "No JSON found in output from " ++ method ++ "\nStdout: " ++ pyTake stdout 500
  if stderr == "" then m else m ++ "\nStderr: " ++ pyTake stderr 500

/-- Lines 406-411: message of the JSON-decode error. -/
def decodeErrorMsg (method jsonStr stderr : String) : String :=
  let m := "Failed to parse JSON output from " ++ method
    ++ "\nExtracted JSON: " ++ pyTake jsonStr 500
  if stderr == "" then m else m ++ "\nStderr: " ++ pyTake stderr 500

/-- Lines 318-328: the index payload extraction starts from — the first
`'{'` in the stripped stdout, falling back to the first `'['` only when no
`'{'` exists anywhere. -/
def extractStart (stdout : String) : Option Nat :=
  match charIndex stdout.toList '\x7b' with
  | some i => some i
  | none => charIndex stdout.toList '['

/-- Modelled from the spec: "The primary output channel's text is scanned
for the first occurrence of an object-start or array-start character; text
before that point is discarded" — the first index holding either
character, whichever comes first.  Stated only for comparison with the
source's `extractStart`. -/
def firstStructIndex : List Char → Option Nat
  | [] => none
  | c :: rest =>
    if c = '\x7b' || c = '[' then some 0 else (firstStructIndex rest).map (· + 1)

/-- Lines 338-403 (evaluate-specific shaping): the `metadata` dict is handed
to the external `GenerateMetadata` Pydantic constructor and the final
record to `GenerateOutputs` — wrappers around the same field values, kept
as the record itself here; lines 392-399 normalize every message list under
`prompt` and `completion`. -/
def normalizeEvaluatePayload (data : Json) : Json :=
  match data with
  | .obj kvs =>
    let kvs1 := match jsonLookup kvs "prompt" with
      | some (.arr ps) => objSet kvs "prompt" (.arr (ps.map normalizeToolCallsInMessages))
      | _ => kvs
    let kvs2 := match jsonLookup kvs1 "completion" with
      | some (.arr cs) => objSet kvs1 "completion" (.arr (cs.map normalizeToolCallsInMessages))
      | _ => kvs1
    .obj kvs2
  | v => v

/-- Lines 306-412: the zero-exit response path of `_call_ts_method` — reject
empty/blank stdout, locate the payload start, decode the remainder, and
(for `evaluate`) normalize the record.  A non-dict `evaluate` payload would
raise `AttributeError` at `data.get("metadata")` (modelled as
`hostError`). -/
def parseStdout (method stdoutRaw stderr : String) : Except CallError Json :=
  if stdoutRaw == "" || pyStrip stdoutRaw == "" then
    .error (.noPayload (noPayloadMsg method stderr))
  else
    let stdout := pyStrip stdoutRaw
    match extractStart stdout with
    | none => .error (.payloadNotFound (payloadNotFoundMsg method stdout stderr))
    | some i =>
      let jsonStr := String.mk (stdout.toList.drop i)
      match jsonParse jsonStr with
      | none => .error (.decodeError (decodeErrorMsg method jsonStr stderr))
      | some data =>
        if method == "evaluate" then
          match data with
          | .obj _ => .ok (normalizeEvaluatePayload data)
          | _ => .error (.hostError "AttributeError")
        else .ok data

/-- Python `s.split("\n")`: `""` yields `[""]`, a trailing newline yields a
trailing empty line.  `acc` is the current line, reversed. -/
def splitNlAux : List Char → List Char → List String
  | [], acc => [String.mk acc.reverse]
  | c :: rest, acc =>
    if c = '\n' then String.mk acc.reverse :: splitNlAux rest []
    else splitNlAux rest (c :: acc)

/-- Python `s.split("\n")`. -/
def pySplitNl (s : String) : List String := splitNlAux s.toList []

/-- Line 422 condition: the reverse scan stops at the first line (from the
end) whose stripped form starts with `'{'`. -/
def findBraceLine : List String → Option String
  | [] => none
  | l :: rest =>
    if pyStartsWith (pyStrip l) "\x7b" then some l else findBraceLine rest

/-- Lines 426/430/434: the message of the `RemoteMethodFailed` condition. -/
def remoteFailMsg (method tail : String) : String :=
  "Failed to call " ++ method ++ " on TypeScript environment: " ++ tail

/-- Lines 414-435: the non-zero-exit failure mapper — `error_output` is
stderr if non-empty, else stdout, else empty; its lines are scanned in
reverse for the last line starting with `'{'`; if that line decodes, the
condition carries its `error` field (default `"Unknown error"`), otherwise
(`json.JSONDecodeError` is caught) the condition carries the full raw
output.  A brace line decoding to a non-dict cannot occur (a decoded text
starting with `'{'` is an object); the branch mirrors the uncaught
`AttributeError` Python would raise. -/
def failureMap (method stderr stdout : String) : CallError :=
  let errorOutput := if stderr != "" then stderr else if stdout != "" then stdout else ""
  let lines := pySplitNl (pyStrip errorOutput)
  match findBraceLine lines.reverse with
  | none => .remoteMethodFailed (remoteFailMsg method errorOutput)
  | some line =>
    match jsonParse (pyStrip line) with
    | none => .remoteMethodFailed (remoteFailMsg method errorOutput)
    | some (.obj kvs) =>
      .remoteMethodFailed (remoteFailMsg method
        (pyStr ((jsonLookup kvs "error").getD (.str "Unknown error"))))
    | some _ => .hostError "AttributeError"

/-!
## One bridged call (`_call_ts_method`, lines 285-437)
The temporary driver script is written before the `try` block; the
subprocess outcome and the response handling happen inside it; the
`finally` clause (line 436-437) unlinks the script on every path.  The
filesystem is modelled as the list of existing file names.
-/

/-- The three ways the `subprocess.run(["node", script], check=True)` call
can come back: exit 0 (captured stdout/stderr), non-zero exit
(`CalledProcessError` with captured stdout/stderr), or an `OSError` before
the process ran (e.g. `node` not on PATH). -/
inductive RunOutcome where
  | exitZero (stdout stderr : String)
  | exitNonZero (stdout stderr : String)
  | spawnFailure (msg : String)
deriving Repr, DecidableEq

/-- Lines 292-435: the value or error `_call_ts_method` produces from a
subprocess outcome (response parsing on exit 0, failure mapping on
non-zero exit, propagated host exception on a spawn failure). -/
def callTsResult (method : String) (outcome : RunOutcome) : Except CallError Json :=
  match outcome with
  | .exitZero stdout stderr => parseStdout method stdout stderr
  | .exitNonZero stdout stderr => .error (failureMap method stderr stdout)
  | .spawnFailure m => .error (.hostError m)

/-- Lines 285-437: one full `_call_ts_method` invocation threaded through
the filesystem: the driver script `tmpFile` is created (line 285-289), the
subprocess runs and the response is handled inside `try`, and the
`finally` clause removes the script on every path — success, mapped
failure, or raised exception alike. -/
def callTsMethodFS (method tmpFile : String) (outcome : RunOutcome) (fs : List String) :
    Except CallError Json × List String :=
  let fs1 := tmpFile :: fs
  let result := callTsResult method outcome
  (result, fs1.erase tmpFile)

/-- Python `tuple(x)` on a JSON-decoded value: a list keeps its elements in
order; a string yields its characters; a dict yields its keys; any other
value raises `TypeError`. -/
def pyTupleOf : Json → Except CallError (List Json)
  | .arr xs => .ok xs
  | .str s => .ok (s.toList.map (fun c => Json.str (String.mk [c])))
  | .obj kvs => .ok ((dedupKVsAux kvs []).map (fun kv => Json.str kv.1))
  | _ => .error (.hostError "TypeError")

/-- Lines 492-525: `TSEnvironmentWrapper.rollout` — the decoded payload of a
`"rollout"` bridged call (returned as-is by `_call_ts_method`, since the
evaluate-specific shaping does not apply), passed through `tuple(result)`. -/
def rolloutCall (outcome : RunOutcome) : Except CallError (List Json) :=
  match callTsResult "rollout" outcome with
  | .ok data => pyTupleOf data
  | .error e => .error e

/-!
## Build cache (`_ensure_compiled`, lines 157-198)
State of one `TSEnvironmentWrapper`: the memoized `_compiled_path`
(`Option String`, `none` initially).  The disk and toolchain conditions a
single call observes are collected in `BuildEnv`.
-/

/-- What one `_ensure_compiled` call observes: whether `dist/` already
exists (line 162-165), which package-manager evidence is present
(lines 171-174), and how the build subprocess behaves (exit code, captured
output, whether `dist/index.js` exists afterwards). -/
structure BuildEnv where
  distExists : Bool
  pnpmLockExists : Bool
  pnpmOnPath : Bool
  buildExitCode : Nat
  buildStdout : String
  buildStderr : String
  indexJsAfterBuild : Bool
deriving Repr, DecidableEq

/-- Line 174: `["pnpm", "run", "build"]` if a pnpm lockfile or the pnpm
binary is present, else `["npm", "run", "build"]`. -/
def buildCmd (env : BuildEnv) : List String :=
  if env.pnpmLockExists || env.pnpmOnPath then ["pnpm", "run", "build"]
  else ["npm", "run", "build"]

/-- The `dist` build-output directory of an environment. -/
def distPath (envPath : String) : String := envPath ++ "/dist"

/-- `str(e)` for `subprocess.CalledProcessError(cmd, returncode)`. -/
def calledProcessErrorStr (cmd : List String) (code : Nat) : String :=
  "Command \x27" ++ pyRepr (.arr (cmd.map .str)) ++ "\x27 returned non-zero exit status "
    ++ toString code ++ "."

/-- The two build-time failure conditions: `buildFailed` — line 196
(`RuntimeError` after a non-zero build exit, carrying the captured
output); `buildIncomplete` — line 187 (`FileNotFoundError` when
`dist/index.js` is missing after a reported-successful build). -/
inductive BuildError where
  | buildFailed (msg : String)
  | buildIncomplete (msg : String)
deriving Repr, DecidableEq

/-- Lines 157-198: one `_ensure_compiled` call.  Returns the call's result,
the wrapper's `_compiled_path` after the call, and how many times the
build subprocess was invoked during the call (0 or 1).  Cached path:
returned immediately.  Existing `dist/`: reused unconditionally, cached.
Otherwise one build: non-zero exit gives `buildFailed` (message from
stderr if non-empty, else stdout, else `str(e)`); a successful exit
without `dist/index.js` gives `buildIncomplete`; otherwise the path is
cached and returned. -/
def ensureCompiled (envId envPath : String) (cached : Option String) (env : BuildEnv) :
    Except BuildError String × Option String × Nat :=
  match cached with
  | some p => (.ok p, some p, 0)
  | none =>
    if env.distExists then
      (.ok (distPath envPath), some (distPath envPath), 0)
    else if env.buildExitCode != 0 then
      let errorMsg :=
        if env.buildStderr != "" then env.buildStderr
        else if env.buildStdout != "" then env.buildStdout
        else calledProcessErrorStr (buildCmd env) env.buildExitCode
      (.error (.buildFailed ("Failed to compile TypeScript environment " ++ envId
        ++ ": " ++ errorMsg)), none, 1)
    else if !env.indexJsAfterBuild then
      (.error (.buildIncomplete ("Build completed but index.js not found at "
        ++ distPath envPath ++ "/index.js. Build output: " ++ env.buildStdout)), none, 1)
    else
      (.ok (distPath envPath), some (distPath envPath), 1)

/-- A sequence of `_ensure_compiled` calls on one wrapper, threading the
memoized `_compiled_path`; yields each call's result and build count. -/
def ensureCompiledTrace (envId envPath : String) :
    Option String → List BuildEnv → List (Except BuildError String × Nat)
  | _, [] => []
  | cached, env :: envs =>
    let r := ensureCompiled envId envPath cached env
    (r.1, r.2.2) :: ensureCompiledTrace envId envPath r.2.1 envs

/-!
## Host factory (`verifiers/utils/env_utils.py`, lines 35-160)
`load_environment` tries the native import inside one `try` block; the
`except ImportError` clause hands off to the TypeScript bridge, the
`except Exception` clause re-raises as `RuntimeError`.  A Python exception
is modelled by its class membership (`ImportError` or not) plus `str(e)`.
The bridge helper `_load_ts_environment` is modelled by its result
(`Option` of an opaque environment handle).
-/

/-- Whether a raised Python exception is an `ImportError`
(`ModuleNotFoundError` included) or any other `Exception`. -/
inductive PyExcKind where
  | importError
  | otherError
deriving Repr, DecidableEq

/-- A raised Python exception: its class membership and `str(e)`. -/
structure PyExc where
  kind : PyExcKind
  msg : String
deriving Repr, DecidableEq

/-- The native module once imported: whether it exposes
`load_environment`, and what calling `load_environment(**env_args)`
does (an opaque environment handle, or a raised exception). -/
structure NativeModule where
  hasLoadEnvironment : Bool
  loadResult : Except PyExc Nat
deriving Repr

/-- What `load_environment` does: an environment handle (with whether it
came through the TypeScript bridge), or one of the two error conditions it
raises (`ValueError` — line 153, after a failed bridge fallback;
`RuntimeError` — line 160, wrapping a non-ImportError exception). -/
inductive HostLoadResult where
  | loaded (env : Nat) (viaBridge : Bool)
  | valueError (msg : String)
  | runtimeError (msg : String)
deriving Repr, DecidableEq

/-- Line 78: `env_id.replace("-", "_").split("/")[-1]`. -/
def moduleNameOf (envId : String) : String :=
  ((envId.replace "-" "_").splitOn "/").getLastD ""

/-- Lines 83-89: the `AttributeError` message raised when the imported
module lacks `load_environment`. -/
def noLoadEnvMsg (envId : String) : String :=
  "Module \x27" ++ moduleNameOf envId ++ "\x27 does not have a \x27load_environment\x27 function. "
    ++ "This usually means there\x27s a package name collision. Please either:\n"
    ++ "1. Rename your environment (e.g. suffix with \x27-env\x27)\n"
    ++ "2. Remove unneeded files with the same name\n"
    ++ "3. Check that you\x27ve installed the correct environment package"

/-- Line 153-155: the `ValueError` message after a failed bridge fallback. -/
def couldNotImportMsg (envId : String) : String :=
  "Could not import \x27" ++ envId ++ "\x27 environment. Ensure the package for the \x27"
    ++ envId ++ "\x27 environment is installed."

/-- Line 160: the `RuntimeError` message wrapping a non-ImportError. -/
def runtimeErrMsg (envId excMsg : String) : String :=
  "Failed to load environment \x27" ++ envId ++ "\x27: " ++ excMsg

/-- Lines 142-148: the `except ImportError` handler — attempt the
TypeScript-bridge fallback; return its environment if it produced one,
else raise `ValueError`. -/
def importErrorHandler (envId : String) (tsFallback : Option Nat) : HostLoadResult :=
  match tsFallback with
  | some env => .loaded env true
  | none => .valueError (couldNotImportMsg envId)

/-- Lines 71-160: `load_environment`.  `importResult` is what
`importlib.import_module(module_name)` does; `tsFallback` is what
`_load_ts_environment` would return if attempted.  The second component
records whether the bridge fallback was attempted.  Any `ImportError`
raised inside the `try` block — by the import itself or by the module's
own `load_environment` call — reaches the `except ImportError` handler;
every other exception reaches `except Exception` and becomes
`RuntimeError` without a fallback attempt. -/
def loadEnvironmentHost (envId : String) (importResult : Except PyExc NativeModule)
    (tsFallback : Option Nat) : HostLoadResult × Bool :=
  match importResult with
  | .error e =>
    match e.kind with
    | .importError => (importErrorHandler envId tsFallback, true)
    | .otherError => (.runtimeError (runtimeErrMsg envId e.msg), false)
  | .ok m =>
    if !m.hasLoadEnvironment then
      -- the AttributeError raised at line 83 is caught by `except Exception`
      (.runtimeError (runtimeErrMsg envId (noLoadEnvMsg envId)), false)
    else
      match m.loadResult with
      | .ok env => (.loaded env false, false)
      | .error e =>
        match e.kind with
        | .importError => (importErrorHandler envId tsFallback, true)
        | .otherError => (.runtimeError (runtimeErrMsg envId e.msg), false)

/-!
## Claim theorems
-/

/-- C1 (counterexample): for the non-dict, non-exportable scalar tool value
`"x"`, lines 367-368 manufacture `{"function": {"name": str(tc)}}`, so the
normalized record carries the function name `"x"` — it is not Python-equal
to the claim's record with name `"unknown_tool"`. -/
theorem normalizeToolCall_scalar_counterexample :
    normalizeToolCall (.str "x")
      = .obj [("function", .obj [("name", .str "x"), ("arguments", .str "\x7b\x7d")]),
              ("type", .str "function")]
    ∧ ¬ pyEqv (normalizeToolCall (.str "x"))
        (.obj [("type", .str "function"),
               ("function", .obj [("name", .str "unknown_tool"),
                                  ("arguments", .str "\x7b\x7d")])]) :=
  ⟨rfl, by decide⟩

/-- C1 (amended): tool-invocation normalization satisfies the first example
as claimed — `{"function": {"name": "f"}}` normalizes to a record
Python-equal to `{"type": "function", "function": {"name": "f",
"arguments": "{}"}}` — while the scalar `"x"` normalizes to the same shape
with function name `"x"` (the string rendering of the scalar;
`"unknown_tool"` is used only when a dict-shaped tool call lacks a string
name).  The third conjunct exercises the same two tool values through the
message-level normalizer. -/
theorem normalizeToolCall_examples_amended :
    pyEqv (normalizeToolCall (.obj [("function", .obj [("name", .str "f")])]))
      (.obj [("type", .str "function"),
             ("function", .obj [("name", .str "f"), ("arguments", .str "\x7b\x7d")])])
    ∧ pyEqv (normalizeToolCall (.str "x"))
      (.obj [("type", .str "function"),
             ("function", .obj [("name", .str "x"), ("arguments", .str "\x7b\x7d")])])
    ∧ normalizeToolCallsInMessages
        (.arr [.obj [("role", .str "assistant"),
                     ("tool_calls", .arr [.obj [("function", .obj [("name", .str "f")])],
                                          .str "x"])]])
      = .arr [.obj [("role", .str "assistant"),
                    ("tool_calls", .arr
                      [.obj [("function", .obj [("name", .str "f"),
                                                ("arguments", .str "\x7b\x7d")]),
                             ("type", .str "function")],
                       .obj [("function", .obj [("name", .str "x"),
                                                ("arguments", .str "\x7b\x7d")]),
                             ("type", .str "function")]])]] :=
  ⟨by decide, by decide, rfl⟩

/-- C2 (counterexample): on stdout `"[7] {"ok":true}"` the first occurrence
of an object-start or array-start character is the `'['` at index 0, but
extraction starts at the `'{'` at index 4 — and succeeds, decoding
`{"ok": true}` — whereas discarding only the text before index 0 would
leave text that does not decode at all.  Extraction therefore does not
scan for the first occurrence of either character: lines 318-321 look for
the first `'{'` and consider `'['` only when no `'{'` exists. -/
theorem extractStart_counterexample :
    firstStructIndex ("[7] \x7b\"ok\":true\x7d").toList = some 0
    ∧ extractStart "[7] \x7b\"ok\":true\x7d" = some 4
    ∧ parseStdout "rollout" "[7] \x7b\"ok\":true\x7d" "" = .ok (.obj [("ok", .bool true)])
    ∧ jsonParse "[7] \x7b\"ok\":true\x7d" = none :=
  ⟨rfl, rfl, rfl, rfl⟩

/-- C2 (amended): after a zero-exit subprocess, payload extraction scans
stdout for the first object-start character, falling back to the first
array-start character only when no object-start exists anywhere, and
discards all text before that point: the banner example decodes to
`{"ok": true}`; empty and blank stdout raise the `NoPayload` condition;
stdout with no `'{'` or `'['` at all raises the `PayloadNotFound`
condition; and (fallback case) leading text before a `'['`-led payload
with no `'{'` is likewise discarded. -/
theorem parseStdout_extraction_amended :
    parseStdout "rollout" "unrelated banner text \x7b\"ok\":true\x7d" ""
      = .ok (.obj [("ok", .bool true)])
    ∧ parseStdout "rollout" "" ""
      = .error (.noPayload "No output from TypeScript method rollout")
    ∧ parseStdout "rollout" "   " ""
      = .error (.noPayload "No output from TypeScript method rollout")
    ∧ parseStdout "rollout" "no braces here" ""
      = .error (.payloadNotFound "No JSON found in output from rollout\nStdout: no braces here")
    ∧ parseStdout "rollout" "banner [1, 2]" "" = .ok (.arr [.int 1, .int 2]) :=
  ⟨rfl, rfl, rfl, rfl, rfl⟩

/-- C3: on a non-zero exit the failure mapper scans the error-channel lines
in reverse for the last line starting a structured error record and raises
`RemoteMethodFailed` with the decoded message: the warmup-line example
yields message `"boom"`, not the warmup line; with two structured lines
the later one wins (reverse order); with no structured line the condition
carries the full raw error-channel text. -/
theorem failureMap_reverse_scan :
    failureMap "rollout" "warmup line\n\x7b\"error\":\"boom\",\"name\":\"Err\"\x7d\n" ""
      = .remoteMethodFailed "Failed to call rollout on TypeScript environment: boom"
    ∧ failureMap "rollout" "\x7b\"error\":\"first\"\x7d\n\x7b\"error\":\"second\"\x7d" ""
      = .remoteMethodFailed "Failed to call rollout on TypeScript environment: second"
    ∧ failureMap "rollout" "just some noise\nmore noise" ""
      = .remoteMethodFailed
          "Failed to call rollout on TypeScript environment: just some noise\nmore noise" :=
  ⟨rfl, rfl, rfl⟩

theorem ensureCompiled_ok_state (envId envPath : String) (st : Option String)
    (env : BuildEnv) (p : String)
    (hok : (ensureCompiled envId envPath st env).1 = .ok p) :
    (ensureCompiled envId envPath st env).2.1 = some p := by
  cases st with
  | some q =>
    simp [ensureCompiled] at hok ⊢
    exact hok
  | none =>
    unfold ensureCompiled at hok ⊢
    by_cases h1 : env.distExists
    · simp [h1] at hok ⊢
      exact hok
    · by_cases h2 : env.buildExitCode != 0
      · simp [h1, h2] at hok
      · by_cases h3 : !env.indexJsAfterBuild
        · simp [h1, h2, h3] at hok
        · simp [h1, h2, h3] at hok ⊢
          exact hok

theorem ensureCompiledTrace_cached (envId envPath p : String) (envs : List BuildEnv) :
    ensureCompiledTrace envId envPath (some p) envs = envs.map (fun _ => (.ok p, 0)) := by
  induction envs with
  | nil => rfl
  | cons e es ih => simp [ensureCompiledTrace, ensureCompiled, ih]

/-- C4: on one wrapper the build process runs at most once over the
successful lifetime — if a call returns a path `p`, every subsequent call
in any trace returns the same `p` with zero build invocations (the
memoized `_compiled_path` is reused); and when `dist/` already exists on
disk and nothing is cached, the call reuses it unconditionally (zero build
invocations, no staleness check). -/
theorem ensureCompiled_memoized (envId envPath : String) (st : Option String)
    (env : BuildEnv) (envs : List BuildEnv) (p : String)
    (hok : (ensureCompiled envId envPath st env).1 = .ok p) :
    ensureCompiledTrace envId envPath (ensureCompiled envId envPath st env).2.1 envs
      = envs.map (fun _ => (.ok p, 0))
    ∧ (st = none → env.distExists = true →
        ensureCompiled envId envPath st env
          = (.ok (distPath envPath), some (distPath envPath), 0)) := by
  constructor
  · rw [ensureCompiled_ok_state envId envPath st env p hok]
    exact ensureCompiledTrace_cached envId envPath p envs
  · intro h1 h2
    subst h1
    simp [ensureCompiled, h2]

/-- Witness for C4 at concrete inputs: a first call that finds `dist/` on
disk caches its path, and a second call — whose build would fail if it
were attempted — reuses the cached path with zero build invocations. -/
theorem ensureCompiled_memoized_witness :
    ensureCompiledTrace "demo" "/envs/demo"
        (ensureCompiled "demo" "/envs/demo" none
          ⟨true, false, false, 1, "", "", false⟩).2.1
        [⟨false, false, false, 1, "", "boom", false⟩]
      = [(.ok "/envs/demo/dist", 0)]
    ∧ ensureCompiled "demo" "/envs/demo" none ⟨true, false, false, 1, "", "", false⟩
        = (.ok (distPath "/envs/demo"), some (distPath "/envs/demo"), 0) :=
  ⟨(ensureCompiled_memoized "demo" "/envs/demo" none
      ⟨true, false, false, 1, "", "", false⟩
      [⟨false, false, false, 1, "", "boom", false⟩] "/envs/demo/dist" rfl).1,
   (ensureCompiled_memoized "demo" "/envs/demo" none
      ⟨true, false, false, 1, "", "", false⟩
      [⟨false, false, false, 1, "", "boom", false⟩] "/envs/demo/dist" rfl).2 rfl rfl⟩

/-- C5: with no prior build output, a non-zero build exit fails with the
`BuildFailed` condition carrying the build tool's captured stderr (else
stdout, else the `CalledProcessError` text); a zero build exit after which
`dist/index.js` does not exist fails with the `BuildIncomplete` condition
even though the build tool reported success. -/
theorem ensureCompiled_build_failures (envId envPath : String) (env : BuildEnv)
    (hdist : env.distExists = false) :
    (env.buildExitCode ≠ 0 →
      ensureCompiled envId envPath none env
        = (.error (.buildFailed ("Failed to compile TypeScript environment " ++ envId
            ++ ": " ++ (if env.buildStderr != "" then env.buildStderr
                else if env.buildStdout != "" then env.buildStdout
                else calledProcessErrorStr (buildCmd env) env.buildExitCode))), none, 1))
    ∧ (env.buildExitCode = 0 → env.indexJsAfterBuild = false →
      ensureCompiled envId envPath none env
        = (.error (.buildIncomplete ("Build completed but index.js not found at "
            ++ distPath envPath ++ "/index.js. Build output: " ++ env.buildStdout)),
           none, 1)) := by
  constructor
  · intro h
    simp [ensureCompiled, hdist, h]
  · intro h1 h2
    simp [ensureCompiled, hdist, h1, h2]

/-- Witness for C5 at concrete inputs: a failing build (exit 1, captured
stderr `"boom"`) and a lying build (exit 0, no `dist/index.js`). -/
theorem ensureCompiled_build_failures_witness :
    (ensureCompiled "demo" "/envs/demo" none ⟨false, false, false, 1, "out", "boom", false⟩
      = (.error (.buildFailed
          "Failed to compile TypeScript environment demo: boom"), none, 1))
    ∧ (ensureCompiled "demo" "/envs/demo" none ⟨false, false, false, 0, "ok", "", false⟩
      = (.error (.buildIncomplete
          "Build completed but index.js not found at /envs/demo/dist/index.js. Build output: ok"),
         none, 1)) :=
  ⟨by have h := (ensureCompiled_build_failures "demo" "/envs/demo"
        ⟨false, false, false, 1, "out", "boom", false⟩ rfl).1 (by decide)
      simpa using h,
   by have h := (ensureCompiled_build_failures "demo" "/envs/demo"
        ⟨false, false, false, 0, "ok", "", false⟩ rfl).2 rfl rfl
      simpa using h⟩

/-- C9: if an `_ensure_compiled` call fails — non-zero build exit or
missing `dist/index.js` after a reported-successful build — the wrapper's
cached `_compiled_path` remains unset, so a subsequent call on the same
wrapper (still finding no `dist/` on disk) re-invokes the build rather
than reusing a failed result. -/
theorem ensureCompiled_error_atomicity (envId envPath : String) (env env2 : BuildEnv)
    (e : BuildError) (herr : (ensureCompiled envId envPath none env).1 = .error e)
    (hdist2 : env2.distExists = false) :
    (ensureCompiled envId envPath none env).2.1 = none
    ∧ (ensureCompiled envId envPath
        (ensureCompiled envId envPath none env).2.1 env2).2.2 = 1 := by
  have hstate : (ensureCompiled envId envPath none env).2.1 = none := by
    unfold ensureCompiled at herr ⊢
    by_cases h1 : env.distExists
    · simp [h1] at herr
    · by_cases h2 : env.buildExitCode != 0
      · simp [h1, h2]
      · by_cases h3 : !env.indexJsAfterBuild
        · simp [h1, h2, h3]
        · simp [h1, h2, h3] at herr
  refine ⟨hstate, ?_⟩
  rw [hstate]
  unfold ensureCompiled
  by_cases h2 : env2.buildExitCode != 0
  · simp [hdist2, h2]
  · by_cases h3 : !env2.indexJsAfterBuild
    · simp [hdist2, h2, h3]
    · simp [hdist2, h2, h3]

/-- Witness for C9 at concrete inputs: a failed build leaves the cache
unset and the next call builds again. -/
theorem ensureCompiled_error_atomicity_witness :
    (ensureCompiled "demo" "/envs/demo" none
        ⟨false, false, false, 1, "", "boom", false⟩).2.1 = none
    ∧ (ensureCompiled "demo" "/envs/demo"
        (ensureCompiled "demo" "/envs/demo" none
          ⟨false, false, false, 1, "", "boom", false⟩).2.1
        ⟨false, false, false, 0, "", "", true⟩).2.2 = 1 :=
  ensureCompiled_error_atomicity "demo" "/envs/demo"
    ⟨false, false, false, 1, "", "boom", false⟩
    ⟨false, false, false, 0, "", "", true⟩
    (.buildFailed "Failed to compile TypeScript environment demo: boom") rfl rfl

/-- C7: for every invocation of `_call_ts_method`, the temporary driver
script written before the subprocess call is absent from the filesystem
after the call completes — whether the call returned a payload, the
subprocess exited non-zero, or response handling raised — because the
`finally` clause unlinks it on every path. -/
theorem callTsMethodFS_tmp_removed (method tmpFile : String) (outcome : RunOutcome)
    (fs : List String) (h : tmpFile ∉ fs) :
    tmpFile ∉ (callTsMethodFS method tmpFile outcome fs).2 := by
  unfold callTsMethodFS
  simpa using h

/-- Witness for C7 at concrete inputs: a fresh driver file name, an
existing unrelated file, and a successful call. -/
theorem callTsMethodFS_tmp_removed_witness :
    ("/tmp/driver.mjs" ∉ (["payload.txt"] : List String))
    ∧ "/tmp/driver.mjs" ∉ (callTsMethodFS "rollout" "/tmp/driver.mjs"
        (.exitZero "\x7b\x7d" "") ["payload.txt"]).2 :=
  ⟨by decide,
   callTsMethodFS_tmp_removed "rollout" "/tmp/driver.mjs"
     (.exitZero "\x7b\x7d" "") ["payload.txt"] (by decide)⟩

/-- C8: for a rollout call whose guest response decodes to a JSON array of
length 3, the wrapper's rollout method returns `tuple(result)` — an
ordered tuple of length 3 with the elements in the decoded order. -/
theorem rolloutCall_triple (stdout stderr : String) (a b c : Json)
    (h : parseStdout "rollout" stdout stderr = .ok (.arr [a, b, c])) :
    rolloutCall (.exitZero stdout stderr) = .ok [a, b, c]
    ∧ [a, b, c].length = 3 := by
  refine ⟨?_, rfl⟩
  have h2 : callTsResult "rollout" (.exitZero stdout stderr) = .ok (.arr [a, b, c]) := h
  unfold rolloutCall
  rw [h2]
  rfl

/-- Witness for C8 at a concrete input: stdout `"[1, 2, 3]"` decodes to a
three-element array and yields the tuple in order. -/
theorem rolloutCall_triple_witness :
    parseStdout "rollout" "[1, 2, 3]" "" = .ok (.arr [.int 1, .int 2, .int 3])
    ∧ (rolloutCall (.exitZero "[1, 2, 3]" "") = .ok [.int 1, .int 2, .int 3]
       ∧ ([Json.int 1, Json.int 2, Json.int 3]).length = 3) :=
  ⟨rfl, rolloutCall_triple "[1, 2, 3]" "" (.int 1) (.int 2) (.int 3) rfl⟩

/-- C10 (counterexample): the native module imports successfully but its own
`load_environment` call raises `ImportError`; contrary to the claim, the
error is not re-raised as `RuntimeError` and the bridge fallback IS
attempted (second component `true`) — here it succeeds and its environment
is returned. -/
theorem loadEnvironmentHost_counterexample :
    loadEnvironmentHost "demo-env"
        (.ok ⟨true, .error ⟨.importError, "No module named \x27torch\x27"⟩⟩) (some 7)
      = (.loaded 7 true, true) := rfl

/-- C10 (amended): the bridge fallback is attempted exactly when the
`try` block raises `ImportError` — whether from the native import itself
or from the imported module's own `load_environment` call; an exception of
any other class raised by `load_environment` is re-raised as
`RuntimeError` and the fallback is never attempted. -/
theorem loadEnvironmentHost_fallback_policy (envId : String) (m : NativeModule)
    (fb : Option Nat) (e : PyExc) (hm : m.hasLoadEnvironment = true)
    (hload : m.loadResult = .error e) :
    loadEnvironmentHost envId (.ok m) fb
      = (if e.kind == .importError then (importErrorHandler envId fb, true)
         else (.runtimeError (runtimeErrMsg envId e.msg), false))
    ∧ (loadEnvironmentHost envId (.error e) fb).2 = (e.kind == .importError) := by
  constructor
  · cases hk : e.kind <;> simp [loadEnvironmentHost, hm, hload, hk]
  · cases hk : e.kind <;> simp [loadEnvironmentHost, hk]

/-- Witness for C10 (amended) at concrete inputs: a module whose
`load_environment` raises `ImportError`, with an available bridge
fallback. -/
theorem loadEnvironmentHost_fallback_policy_witness :
    loadEnvironmentHost "demo-env"
        (.ok ⟨true, .error ⟨.importError, "No module named \x27openai\x27"⟩⟩) (some 3)
      = (if (PyExc.mk .importError "No module named \x27openai\x27").kind == .importError
         then (importErrorHandler "demo-env" (some 3), true)
         else (.runtimeError (runtimeErrMsg "demo-env"
                (PyExc.mk .importError "No module named \x27openai\x27").msg), false))
    ∧ (loadEnvironmentHost "demo-env"
        (.error ⟨.importError, "No module named \x27openai\x27"⟩) (some 3)).2
      = ((PyExc.mk .importError "No module named \x27openai\x27").kind == .importError) :=
  loadEnvironmentHost_fallback_policy "demo-env"
    ⟨true, .error ⟨.importError, "No module named \x27openai\x27"⟩⟩ (some 3)
    ⟨.importError, "No module named \x27openai\x27"⟩ rfl rfl
